import Mathlib

/-!
Shallow embedding of the media-store and thumbnail subsystem of `app.py`
(self-hosted media gallery).  Paths are modelled as lists of components
(the base directories are taken as already resolved, symlink-free);
strings are modelled for ASCII input: the NFKD-normalise/ASCII-encode
step of werkzeug's secure_filename is the identity on ASCII and drops
other characters, which the character filter below also does.  The app
configures a Windows base directory (drive letter path), so the Windows
behaviour of secure_filename (both separators replaced, reserved device
names prefixed) and of pathlib PurePath name/suffix/stem (drive-letter
prefix recognised at the start of the string; UNC prefixes out of scope)
is modelled.
-/

namespace App

/-- Character test for the two Windows path separators (os.sep and os.path.altsep). -/
def isSep (c : Char) : Bool := c == '/' || c == '\\'

/-- Python str.split() whitespace (space, tab, newline, carriage return, vertical tab, form feed). -/
def isPySpace (c : Char) : Bool :=
  c == ' ' || c == '\t' || c == '\n' || c == '\r' || c == '\x0b' || c == '\x0c'

/-- Characters kept by werkzeug's filename filter, the regex class A-Za-z0-9 underscore dot hyphen. -/
def isAllowedFilenameChar (c : Char) : Bool :=
  c.isAlpha || c.isDigit || c == '_' || c == '.' || c == '-'

/-- Characters removed from both ends by strip with the argument dot-underscore. -/
def isStripChar (c : Char) : Bool := c == '.' || c == '_'

/-- Python str.split with no argument: split on whitespace runs, discarding empty pieces.
The accumulator holds the current word reversed. -/
def splitWordsAux : List Char → List Char → List (List Char)
  | [], acc => if acc.isEmpty then [] else [acc.reverse]
  | c :: rest, acc =>
    if isPySpace c then
      if acc.isEmpty then splitWordsAux rest [] else acc.reverse :: splitWordsAux rest []
    else splitWordsAux rest (c :: acc)

/-- Python str.strip with argument dot-underscore: remove leading and trailing
dots and underscores.  Trailing characters are removed first, then leading ones,
so the result is literally a dropWhile and its head fails isStripChar. -/
def stripEnds (l : List Char) : List Char :=
  ((l.reverse.dropWhile isStripChar).reverse).dropWhile isStripChar

/-- Windows reserved device file names checked by werkzeug's secure_filename. -/
def windowsDeviceFiles : List String :=
  ["CON", "PRN", "AUX", "NUL",
   "COM0", "COM1", "COM2", "COM3", "COM4", "COM5", "COM6", "COM7", "COM8", "COM9",
   "LPT0", "LPT1", "LPT2", "LPT3", "LPT4", "LPT5", "LPT6", "LPT7", "LPT8", "LPT9"]

/-- Intermediate value of werkzeug's secure_filename: separators replaced by
spaces, whitespace-split words joined with underscores, then every character
outside the allowed class removed. -/
def sfFiltered (fn : String) : List Char :=
  (List.intercalate ['_']
    (splitWordsAux (fn.data.map (fun c => if isSep c then ' ' else c)) [])).filter
    isAllowedFilenameChar

/-- Value of werkzeug's secure_filename before the reserved-device-name check:
the filtered characters with leading and trailing dots and underscores stripped. -/
def sfStripped (fn : String) : List Char := stripEnds (sfFiltered fn)

/-- Model of werkzeug.utils.secure_filename (Windows behaviour, ASCII input):
replace separators by spaces, join whitespace-split words with underscores,
drop disallowed characters, strip leading and trailing dots and underscores,
and prefix an underscore when the first dot-separated word is a reserved
Windows device name. -/
def secure_filename (fn : String) : String :=
  if String.mk (((sfStripped fn).takeWhile (fun c => c != '.')).map Char.toUpper)
      ∈ windowsDeviceFiles
  then String.mk ('_' :: sfStripped fn)
  else String.mk (sfStripped fn)

/-- Resolution of base slash name against an already-resolved base directory,
for a name that is a single component (no separators): Path.resolve collapses
an empty or dot component to the base itself and a dot-dot component to the
parent; any other component is a direct child.  (No symlinks are modelled.) -/
def resolveChild (base : List String) (name : String) : List String :=
  if name = "" ∨ name = "." then base
  else if name = ".." then base.dropLast
  else base ++ [name]

/-- Test whether the first path is one of the parents of the second, i.e. a
strict component-wise ancestor, matching base_resolved in candidate.parents. -/
def inParents : List String → List String → Bool
  | [], [] => false
  | [], _ :: _ => true
  | _ :: _, [] => false
  | a :: as, b :: bs => a == b && inParents as bs

/-- Model of safe_media_path from app.py lines 157-164: sanitize the filename
with secure_filename, resolve it against the base directory, and abort with
HTTP 400 unless the resolved candidate is a descendant of (or equal to) the
resolved base.  The HTTP abort is modelled as an error value. -/
def safe_media_path (base : List String) (filename : String) : Except Nat (List String) :=
  let clean := secure_filename filename
  let candidate := resolveChild base clean
  if inParents base candidate = false ∧ candidate ≠ base then .error 400
  else .ok candidate

/-- Strip a leading Windows drive-letter prefix (a letter followed by a colon)
from the character list of a path string, as pathlib recognises it. -/
def stripDrive : List Char → List Char
  | c :: ':' :: rest => if c.isAlpha then rest else c :: ':' :: rest
  | l => l

/-- Split a character list into path components at separators.  The accumulator
holds the current component reversed. -/
def splitCompsAux : List Char → List Char → List (List Char)
  | [], acc => [acc.reverse]
  | c :: rest, acc =>
    if isSep c then acc.reverse :: splitCompsAux rest [] else splitCompsAux rest (c :: acc)

/-- Model of pathlib PurePath(s).name on Windows: the last nonempty component
after the drive prefix, empty if there is none. -/
def pathName (s : String) : String :=
  match ((splitCompsAux (stripDrive s.data) []).filter (fun c => !c.isEmpty)).getLast? with
  | none => ""
  | some last => String.mk last

/-- Model of pathlib PurePath(s).suffix: the part of the name from its last
dot, empty when there is no dot, when the dot is the first character of the
name, or when it is the last. -/
def pathSuffix (s : String) : String :=
  let n := (pathName s).data
  let rev := n.reverse
  let pre := rev.takeWhile (fun c => c != '.')
  if pre.length = rev.length then ""
  else if pre.length = 0 then ""
  else if rev.length = pre.length + 1 then ""
  else String.mk ('.' :: pre.reverse)

/-- Model of pathlib PurePath(s).stem: the name with the suffix removed. -/
def pathStem (s : String) : String :=
  let n := (pathName s).data
  String.mk (n.take (n.length - (pathSuffix s).data.length))

/-- Lowercase a suffix as Python str.lower does on ASCII. -/
def suffixLower (fn : String) : String := String.mk ((pathSuffix fn).data.map Char.toLower)

/-- VIDEO_EXTENSIONS from app.py line 51. -/
def VIDEO_EXTENSIONS : List String := [".mp4", ".mkv", ".avi", ".mov", ".webm"]

/-- IMAGE_EXTENSIONS from app.py line 52. -/
def IMAGE_EXTENSIONS : List String := [".jpg", ".jpeg", ".png", ".webp", ".gif"]

/-- MEDIA_EXTENSIONS from app.py line 53, the union of the two sets. -/
def MEDIA_EXTENSIONS : List String := VIDEO_EXTENSIONS ++ IMAGE_EXTENSIONS

/-- Model of allowed_file from app.py lines 167-168: the lowercased suffix is
a member of the media extension set. -/
def allowed_file (filename : String) : Bool :=
  decide (suffixLower filename ∈ MEDIA_EXTENSIONS)

/-- Model of media_kind from app.py lines 171-172: video when the lowercased
suffix is a video extension, image otherwise (image is the default branch). -/
def media_kind (filename : String) : String :=
  if suffixLower filename ∈ VIDEO_EXTENSIONS then "video" else "image"

/-- Observable filesystem state of the media store: the file names present in
the pending directory `assets/not-approve-vedio`, the approved video directory
`assets/vedios` and the approved image directory `assets/image`.  Directory
listings are modelled as lists of names used as finite sets. -/
structure MediaState where
  pending : List String
  videos : List String
  images : List String
  deriving DecidableEq, Repr

/-- Separator occurrence test on a string. -/
def containsSep (s : String) : Bool := s.data.any isSep

/-- Insert a name into a directory listing; a move onto an existing name
overwrites the file, so the listing gains the name at most once. -/
def addName (n : String) (l : List String) : List String :=
  if n ∈ l then l else n :: l

/-- Destination file name computed by approve_media: the source name is the
sanitized form filename, and the destination is resolved by a second
safe_media_path call, so it is sanitized once more; shutil.move targets the
base directory itself when the re-sanitized name is empty, placing the file
under its source name. -/
def approveFinalName (filename : String) : String :=
  let destName := secure_filename (secure_filename filename)
  if destName = "" then secure_filename filename else destName

/-- Outcome of the approve_media handler. -/
inductive ApproveResult where
  /-- The sanitized source name is absent from the pending directory: abort 404. -/
  | notFound
  /-- The sanitized name is empty, so the source path resolves to the pending
  directory itself, which exists; media_kind of its name `not-approve-vedio` is
  image, and shutil.move relocates the entire pending directory under the image
  directory. -/
  | movedPendingDir
  /-- The pending file was moved into the approved directory for its kind. -/
  | moved (destName : String) (kind : String)
  deriving DecidableEq, Repr

/-- Model of approve_media from app.py lines 327-342.  The handler resolves
the form filename inside the pending directory (safe_media_path never aborts,
see the theorems below), requires the resolved source to exist, classifies it
with media_kind, resolves the destination with a second safe_media_path call
on the source name, and performs shutil.move with no destination-existence
check: an existing destination file is overwritten (rename on the same volume,
copy-then-delete across volumes).  When the sanitized name is empty the source
is the pending directory itself: exists() holds and the whole directory is
moved under the image directory (its contents leave the pending listing; the
nested directory that appears under images is outside this state model and
noted by the movedPendingDir outcome). -/
def approve_media (s : MediaState) (filename : String) : ApproveResult × MediaState :=
  let clean := secure_filename filename
  if clean = "" then
    (.movedPendingDir, { s with pending := [] })
  else if clean ∈ s.pending then
    if media_kind clean = "video" then
      (.moved (approveFinalName filename) "video",
       { s with pending := s.pending.erase clean,
                videos := addName (approveFinalName filename) s.videos })
    else
      (.moved (approveFinalName filename) "image",
       { s with pending := s.pending.erase clean,
                images := addName (approveFinalName filename) s.images })
  else (.notFound, s)

/-- Outcome of the rename_media handler. -/
inductive RenameResult where
  /-- The new name is empty or fails the extension allow-list; rejected before
  any filesystem access. -/
  | invalidName
  /-- The resolved destination already exists; rejected, nothing renamed. -/
  | alreadyExists
  /-- The source was renamed to the destination inside its base directory. -/
  | renamed (srcName destName : String)
  /-- Path.rename raised: the source file is absent (FileNotFoundError), or the
  sanitized source name is empty so the source is the base directory itself and
  renaming a directory into itself fails (OSError).  No mutation happens. -/
  | uncaughtError
  deriving DecidableEq, Repr

/-- Base-directory selection of rename_media (app.py lines 379-382): the
pending directory when the location field is pending, otherwise the video
directory when safe_media_path(VIDEO_PATH, filename) exists (which also holds
when the sanitized filename is empty, since the resolved path is then the
video directory itself), else the image directory. -/
def rename_base (s : MediaState) (filename location : String) : String :=
  if location = "pending" then "pending"
  else if secure_filename filename = "" ∨ secure_filename filename ∈ s.videos then "videos"
  else "images"

/-- Directory listing of a base selected by rename_base. -/
def baseNames (s : MediaState) (b : String) : List String :=
  if b = "pending" then s.pending else if b = "videos" then s.videos else s.images

/-- Replace the directory listing of a base selected by rename_base. -/
def setBaseNames (s : MediaState) (b : String) (l : List String) : MediaState :=
  if b = "pending" then { s with pending := l }
  else if b = "videos" then { s with videos := l }
  else { s with images := l }

/-- Model of rename_media from app.py lines 367-393.  The handler first
validates the new name against the extension allow-list (before any
filesystem access), then picks the base directory, resolves source and
destination inside it with safe_media_path, rejects when the destination
exists (which also holds when the sanitized new name is empty, the resolved
destination then being the base directory itself), and otherwise calls
Path.rename, which raises when the source is absent. -/
def rename_media (s : MediaState) (filename new_name location : String) :
    RenameResult × MediaState :=
  if new_name = "" ∨ allowed_file new_name = false then (.invalidName, s)
  else
    let b := rename_base s filename location
    let srcClean := secure_filename filename
    let dstClean := secure_filename new_name
    if dstClean = "" ∨ dstClean ∈ baseNames s b then (.alreadyExists, s)
    else if srcClean = "" ∨ srcClean ∉ baseNames s b then (.uncaughtError, s)
    else (.renamed srcClean dstClean,
          setBaseNames s b (dstClean :: (baseNames s b).erase srcClean))

/-- Behaviour of the video backend (cv2.VideoCapture) on a given video file
name: whether the capture opens, and whether the single frame read after the
2000 millisecond seek succeeds, together with the frame dimensions.  These are
oracles for the external decoder. -/
structure Decoder where
  opens : String → Bool
  readOk : String → Bool

/-- Observable state of the thumbnail engine: whether the cv2 import succeeded
(app.py lines 9-12) and the set of video stems that have a cached
`stem.jpg` file in the thumbnail directory `assets/thubnail`. -/
structure ThumbState where
  cv2Available : Bool
  thumbs : List String
  deriving DecidableEq, Repr

/-- Result of one call to generate_thumbnail_opencv: the returned boolean, the
thumbnail directory state after the call, and whether the decoder was invoked
(cv2.VideoCapture constructed and the file decoded). -/
structure ThumbResult where
  ret : Bool
  state : ThumbState
  decoderInvoked : Bool
  deriving DecidableEq, Repr

/-- Model of generate_thumbnail_opencv from app.py lines 177-200.  When the
cv2 import failed the function returns False immediately.  Otherwise, when the
cached thumbnail for the video stem exists it returns True without touching
the decoder.  Otherwise it opens the capture (returning False when that
fails), seeks to 2000 ms, reads one frame, writes the resized frame only on a
successful read, releases the capture and returns the read flag.  The function
is total: no exception reaches the caller on any branch. -/
def generate_thumbnail_opencv (d : Decoder) (s : ThumbState) (video_filename : String) :
    ThumbResult :=
  if s.cv2Available = false then ⟨false, s, false⟩
  else if pathStem video_filename ∈ s.thumbs then ⟨true, s, false⟩
  else if d.opens video_filename = false then ⟨false, s, true⟩
  else if d.readOk video_filename = true then
    ⟨true, ⟨s.cv2Available, pathStem video_filename :: s.thumbs⟩, true⟩
  else ⟨false, s, true⟩

/-- Dimensions passed to cv2.resize at app.py line 196 for a frame of width w
and height h: the pair (400, int(h * (400 / w))).  Python's int() truncates,
so the height is the floor of h times 400 over w; the code computes it with
float division, which agrees with the exact truncation except at
floating-point rounding boundaries (the concrete inputs used in the theorems
below are far from any boundary). -/
def resize_target_dims (w h : Nat) : Nat × Nat := (400, h * 400 / w)

/-- Height the specification prescribes for the thumbnail: nearest-integer
rounding of h times 400 over w, written as an exact rational rounding. -/
def spec_round_height (w h : Nat) : Nat := (2 * (h * 400) + w) / (2 * w)

/-- Test for a dot-dot-slash occurrence in a raw filename. -/
def startsWithList : List Char → List Char → Bool
  | [], _ => true
  | _ :: _, [] => false
  | p :: ps, x :: xs => p == x && startsWithList ps xs

/-- Substring occurrence test on character lists. -/
def listHasInfixOf (pat : List Char) : List Char → Bool
  | [] => pat.isEmpty
  | c :: t => startsWithList pat (c :: t) || listHasInfixOf pat t

/-- Raw-filename test used to state the traversal claim: the name contains the
three characters dot dot slash, or is absolute (starts with a separator or a
drive-letter prefix). -/
def hasTraversalOrAbsolute (s : String) : Bool :=
  listHasInfixOf ['.', '.', '/'] s.data ||
  (match s.data with
   | c :: rest =>
     isSep c ||
     (match rest with
      | ':' :: _ => c.isAlpha
      | _ => false)
   | [] => false)

/-- Membership survives dropWhile. -/
theorem mem_of_mem_dropWhile {α : Type} (p : α → Bool) :
    ∀ (l : List α) (x : α), x ∈ l.dropWhile p → x ∈ l := by
  intro l
  induction l with
  | nil => intro x h; simp at h
  | cons a t ih =>
    intro x h
    rw [List.dropWhile_cons] at h
    split at h
    · exact List.mem_cons_of_mem _ (ih x h)
    · exact h

/-- The head of a dropWhile result fails the predicate. -/
theorem dropWhile_head_false {α : Type} (p : α → Bool) :
    ∀ (l : List α) (x : α) (xs : List α), l.dropWhile p = x :: xs → p x = false := by
  intro l
  induction l with
  | nil => intro x xs h; simp at h
  | cons a t ih =>
    intro x xs h
    rw [List.dropWhile_cons] at h
    split at h
    · exact ih x xs h
    · rename_i hpa
      cases h
      simpa using hpa

/-- Membership survives stripping both ends. -/
theorem mem_stripEnds (l : List Char) (c : Char) (h : c ∈ stripEnds l) : c ∈ l := by
  unfold stripEnds at h
  have h1 := mem_of_mem_dropWhile _ _ _ h
  rw [List.mem_reverse] at h1
  have h2 := mem_of_mem_dropWhile _ _ _ h1
  rw [List.mem_reverse] at h2
  exact h2

/-- Every character of a sanitized filename is an underscore or in the allowed
filename character class. -/
theorem secure_filename_chars (fn : String) (c : Char)
    (h : c ∈ (secure_filename fn).data) : c = '_' ∨ isAllowedFilenameChar c = true := by
  unfold secure_filename at h
  split at h
  · have h' : c ∈ '_' :: sfStripped fn := h
    rcases List.mem_cons.mp h' with rfl | hm
    · exact Or.inl rfl
    · have h2 := mem_stripEnds _ _ hm
      exact Or.inr (List.mem_filter.mp h2).2
  · have h' : c ∈ sfStripped fn := h
    have h2 := mem_stripEnds _ _ h'
    exact Or.inr (List.mem_filter.mp h2).2

/-- The first character of a nonempty sanitized filename is an underscore (the
reserved-device-name prefix) or a character that strip did not remove. -/
theorem secure_filename_head (fn : String) (x : Char) (xs : List Char)
    (h : (secure_filename fn).data = x :: xs) : x = '_' ∨ isStripChar x = false := by
  unfold secure_filename at h
  split at h
  · have h' : ('_' :: sfStripped fn) = x :: xs := h
    injection h' with h1 _
    exact Or.inl h1.symm
  · have h' : sfStripped fn = x :: xs := h
    unfold sfStripped stripEnds at h'
    exact Or.inr (dropWhile_head_false _ _ _ _ h')

/-- A sanitized filename is never a dot-dot or dot component. -/
theorem secure_filename_ne_special (fn : String) :
    secure_filename fn ≠ ".." ∧ secure_filename fn ≠ "." := by
  constructor
  · intro h
    have hd : (secure_filename fn).data = ['.', '.'] := by rw [h]
    rcases secure_filename_head fn '.' ['.'] hd with h1 | h1
    · exact absurd h1 (by decide)
    · exact absurd h1 (by decide)
  · intro h
    have hd : (secure_filename fn).data = ['.'] := by rw [h]
    rcases secure_filename_head fn '.' [] hd with h1 | h1
    · exact absurd h1 (by decide)
    · exact absurd h1 (by decide)

/-- Allowed filename characters are not separators. -/
theorem isSep_eq_false_of_allowed (c : Char) (h : isAllowedFilenameChar c = true) :
    isSep c = false := by
  cases hc : isSep c
  · rfl
  · exfalso
    simp only [isSep, Bool.or_eq_true, beq_iff_eq] at hc
    rcases hc with rfl | rfl
    · exact absurd h (by decide)
    · exact absurd h (by decide)

/-- A sanitized filename contains no path separator. -/
theorem containsSep_secure_filename (fn : String) :
    containsSep (secure_filename fn) = false := by
  unfold containsSep
  rw [List.any_eq_false]
  intro x hx
  rcases secure_filename_chars fn x hx with rfl | ha
  · decide
  · rw [isSep_eq_false_of_allowed x ha]
    decide

/-- A path is never among its own parents. -/
theorem inParents_self (l : List String) : inParents l l = false := by
  induction l with
  | nil => rfl
  | cons a t ih => simp [inParents, ih]

/-- A direct child has the base among its parents. -/
theorem inParents_append_single (l : List String) (c : String) :
    inParents l (l ++ [c]) = true := by
  induction l with
  | nil => rfl
  | cons a t ih => simp [inParents, ih]

/-- Core behaviour of safe_media_path on an input whose sanitization is empty:
the candidate resolves to the base directory itself and the function returns
it without aborting. -/
theorem safe_media_path_ok_base_of_empty (base : List String) (fn : String)
    (h : secure_filename fn = "") :
    safe_media_path base fn = Except.ok base := by
  simp [safe_media_path, resolveChild, h, inParents_self]

/-- A name is a member of the listing addName produces for it. -/
theorem mem_addName_self (n : String) (l : List String) : n ∈ addName n l := by
  unfold addName
  split
  · assumption
  · exact List.mem_cons_self _ _

/-- C1 counterexample: a filename containing dot-dot-slash segments is not
rejected by safe_media_path; the traversal content is sanitized away by
secure_filename and the function returns a path inside the base directory,
performing its resolve work rather than aborting with 400. -/
theorem safe_media_path_traversal_not_rejected :
    hasTraversalOrAbsolute "../../etc/passwd" = true ∧
    secure_filename "../../etc/passwd" = "etc_passwd" ∧
    safe_media_path ["E:", "server--", "vedio-local", "assets", "vedios"] "../../etc/passwd"
      = Except.ok ["E:", "server--", "vedio-local", "assets", "vedios", "etc_passwd"] :=
  ⟨by decide, by decide, rfl⟩

/-- C1 amended: safe_media_path never rejects any filename.  secure_filename
strips every separator, dot-dot and dot component, so the resolved candidate
is always the base directory itself (empty sanitized name) or a direct child
of it, the descendant check passes, and the 400 abort branch is unreachable;
traversal input is sanitized and processed, not refused. -/
theorem safe_media_path_never_rejects (base : List String) (fn : String) :
    ∃ p, safe_media_path base fn = Except.ok p ∧
      (p = base ∨
        (p = base ++ [secure_filename fn] ∧ secure_filename fn ≠ "" ∧
         containsSep (secure_filename fn) = false ∧
         secure_filename fn ≠ ".." ∧ secure_filename fn ≠ ".")) := by
  by_cases h0 : secure_filename fn = ""
  · exact ⟨base, safe_media_path_ok_base_of_empty base fn h0, Or.inl rfl⟩
  · have hne2 := (secure_filename_ne_special fn).1
    have hne1 := (secure_filename_ne_special fn).2
    refine ⟨base ++ [secure_filename fn], ?_,
      Or.inr ⟨rfl, h0, containsSep_secure_filename fn, hne2, hne1⟩⟩
    simp [safe_media_path, resolveChild, h0, hne1, hne2, inParents_append_single]

/-- C2 counterexample: approving a pending file whose name already exists in
the approved video directory does not fail and does mutate the filesystem:
the move is performed with no destination-existence check, the pending entry
disappears, and the existing approved file is overwritten by shutil.move. -/
theorem approve_media_collision_overwrites :
    "a.mp4" ∈ (MediaState.mk ["a.mp4"] ["a.mp4"] []).videos ∧
    "a.mp4" ∈ (MediaState.mk ["a.mp4"] ["a.mp4"] []).pending ∧
    approve_media (MediaState.mk ["a.mp4"] ["a.mp4"] []) "a.mp4"
      = (ApproveResult.moved "a.mp4" "video", MediaState.mk [] ["a.mp4"] []) ∧
    (approve_media (MediaState.mk ["a.mp4"] ["a.mp4"] []) "a.mp4").2
      ≠ MediaState.mk ["a.mp4"] ["a.mp4"] [] := by
  decide

/-- C2 amended: approve_media performs the move unconditionally for every
pending file, whether or not the destination name already exists in the
approved directory: the outcome is always a move (never an AlreadyExists
failure, a case absent from the code), the pending entry is removed, and the
destination listing holds the moved name (an existing destination file having
been overwritten by shutil.move). -/
theorem approve_media_moves_despite_collision (s : MediaState) (fn : String)
    (h1 : secure_filename fn ≠ "") (h2 : secure_filename fn ∈ s.pending) :
    ((approve_media s fn).1 = ApproveResult.moved (approveFinalName fn) "video" ∨
     (approve_media s fn).1 = ApproveResult.moved (approveFinalName fn) "image") ∧
    (approve_media s fn).2.pending = s.pending.erase (secure_filename fn) ∧
    (approveFinalName fn ∈ (approve_media s fn).2.videos ∨
     approveFinalName fn ∈ (approve_media s fn).2.images) := by
  by_cases hk : media_kind (secure_filename fn) = "video"
  · refine ⟨Or.inl ?_, ?_, Or.inl ?_⟩
    · simp [approve_media, h1, h2, hk]
    · simp [approve_media, h1, h2, hk]
    · simp [approve_media, h1, h2, hk, mem_addName_self]
  · refine ⟨Or.inr ?_, ?_, Or.inr ?_⟩
    · simp [approve_media, h1, h2, hk]
    · simp [approve_media, h1, h2, hk]
    · simp [approve_media, h1, h2, hk, mem_addName_self]

/-- C2 amended, witness: a concrete pending file colliding with an approved
video file is moved anyway. -/
theorem approve_media_moves_despite_collision_witness :
    secure_filename "b.mp4" ≠ "" ∧
    secure_filename "b.mp4" ∈ (MediaState.mk ["b.mp4"] ["b.mp4"] []).pending ∧
    (((approve_media (MediaState.mk ["b.mp4"] ["b.mp4"] []) "b.mp4").1
        = ApproveResult.moved (approveFinalName "b.mp4") "video" ∨
      (approve_media (MediaState.mk ["b.mp4"] ["b.mp4"] []) "b.mp4").1
        = ApproveResult.moved (approveFinalName "b.mp4") "image") ∧
     (approve_media (MediaState.mk ["b.mp4"] ["b.mp4"] []) "b.mp4").2.pending
        = (["b.mp4"] : List String).erase (secure_filename "b.mp4") ∧
     (approveFinalName "b.mp4" ∈ (approve_media (MediaState.mk ["b.mp4"] ["b.mp4"] []) "b.mp4").2.videos ∨
      approveFinalName "b.mp4" ∈ (approve_media (MediaState.mk ["b.mp4"] ["b.mp4"] []) "b.mp4").2.images)) :=
  ⟨by decide, by decide,
   approve_media_moves_despite_collision (MediaState.mk ["b.mp4"] ["b.mp4"] []) "b.mp4"
     (by decide) (by decide)⟩

/-- C3: generate_thumbnail_opencv is idempotent.  Whenever a call returns
true, a second call on the same video name in the resulting state observes
the cached thumbnail, returns true, does not invoke the decoder and leaves
the thumbnail directory unchanged. -/
theorem generate_thumbnail_opencv_idempotent (d : Decoder) (s : ThumbState) (v : String)
    (h : (generate_thumbnail_opencv d s v).ret = true) :
    generate_thumbnail_opencv d (generate_thumbnail_opencv d s v).state v
      = ⟨true, (generate_thumbnail_opencv d s v).state, false⟩ := by
  by_cases hc : s.cv2Available = false
  · simp [generate_thumbnail_opencv, hc] at h
  · by_cases hm : pathStem v ∈ s.thumbs
    · simp [generate_thumbnail_opencv, hc, hm]
    · by_cases ho : d.opens v = false
      · simp [generate_thumbnail_opencv, hc, hm, ho] at h
      · by_cases hr : d.readOk v = true
        · simp [generate_thumbnail_opencv, hc, hm, ho, hr]
        · simp [generate_thumbnail_opencv, hc, hm, ho, hr] at h

/-- C3 witness: a first successful call on a fresh state creates the cached
thumbnail and the second call short-circuits on it. -/
theorem generate_thumbnail_opencv_idempotent_witness :
    (generate_thumbnail_opencv ⟨fun _ => true, fun _ => true⟩ ⟨true, []⟩ "clip.mp4").ret = true ∧
    generate_thumbnail_opencv ⟨fun _ => true, fun _ => true⟩
        (generate_thumbnail_opencv ⟨fun _ => true, fun _ => true⟩ ⟨true, []⟩ "clip.mp4").state
        "clip.mp4"
      = ⟨true,
         (generate_thumbnail_opencv ⟨fun _ => true, fun _ => true⟩ ⟨true, []⟩ "clip.mp4").state,
         false⟩ :=
  ⟨by decide, generate_thumbnail_opencv_idempotent _ _ _ (by decide)⟩

/-- C4: when the backend is available, no thumbnail is cached yet, and either
the capture fails to open or the single-frame read after the 2000 ms seek
fails, generate_thumbnail_opencv returns false, creates no file in the
thumbnail cache directory, and (being a total function in this model, with
every failure branch returning a value) raises nothing to the caller. -/
theorem generate_thumbnail_opencv_decode_failure (d : Decoder) (s : ThumbState) (v : String)
    (hc : s.cv2Available = true) (hm : pathStem v ∉ s.thumbs)
    (hf : d.opens v = false ∨ d.readOk v = false) :
    generate_thumbnail_opencv d s v = ⟨false, s, true⟩ := by
  rcases hf with hf | hf
  · simp [generate_thumbnail_opencv, hc, hm, hf]
  · by_cases ho : d.opens v = false
    · simp [generate_thumbnail_opencv, hc, hm, ho]
    · simp [generate_thumbnail_opencv, hc, hm, ho, hf]

/-- C4 witness: a video whose capture does not open yields false and an
unchanged empty thumbnail directory. -/
theorem generate_thumbnail_opencv_decode_failure_witness :
    (ThumbState.mk true []).cv2Available = true ∧
    pathStem "bad.mp4" ∉ (ThumbState.mk true []).thumbs ∧
    generate_thumbnail_opencv ⟨fun _ => false, fun _ => true⟩ (ThumbState.mk true []) "bad.mp4"
      = ⟨false, ThumbState.mk true [], true⟩ :=
  ⟨rfl, by decide,
   generate_thumbnail_opencv_decode_failure _ _ _ rfl (by decide) (Or.inl rfl)⟩

/-- C5 counterexample: the filename dot-dot is not present in the pending
directory, yet approve_media does not fail NotFound and does not leave the
directories unchanged: secure_filename maps it to the empty string, the
resolved source is the pending directory itself, whose exists() check passes,
and shutil.move relocates the whole pending directory under the image
directory. -/
theorem approve_media_dotdot_escapes_notFound :
    (".." ∉ (MediaState.mk ["a.mp4"] [] []).pending) ∧
    (approve_media (MediaState.mk ["a.mp4"] [] []) "..").1 ≠ ApproveResult.notFound ∧
    (approve_media (MediaState.mk ["a.mp4"] [] []) "..").2 ≠ MediaState.mk ["a.mp4"] [] [] ∧
    approve_media (MediaState.mk ["a.mp4"] [] []) ".."
      = (ApproveResult.movedPendingDir, MediaState.mk [] [] []) := by
  decide

/-- C5 amended: for every filename whose sanitized name is nonempty and absent
from the pending directory, approve_media fails NotFound (HTTP 404) and
leaves the pending, video and image directories unchanged. -/
theorem approve_media_notFound_on_missing (s : MediaState) (fn : String)
    (h1 : secure_filename fn ≠ "") (h2 : secure_filename fn ∉ s.pending) :
    approve_media s fn = (ApproveResult.notFound, s) := by
  simp [approve_media, h1, h2]

/-- C5 amended, witness: a missing concrete file name yields NotFound with the
state untouched. -/
theorem approve_media_notFound_on_missing_witness :
    secure_filename "missing.mp4" ≠ "" ∧
    secure_filename "missing.mp4" ∉ (MediaState.mk ["a.mp4"] [] []).pending ∧
    approve_media (MediaState.mk ["a.mp4"] [] []) "missing.mp4"
      = (ApproveResult.notFound, MediaState.mk ["a.mp4"] [] []) :=
  ⟨by decide, by decide, approve_media_notFound_on_missing _ _ (by decide) (by decide)⟩

/-- C6: rename_media rejects with no mutation in both failure cases and
renames in place otherwise.  A new name failing the extension allow-list is
rejected as invalid before any filesystem access (the allow-list test is the
first statement of the handler) with the state unchanged; a new name whose
resolved destination already exists is rejected with the state unchanged, the
source untouched; otherwise, when the source exists, the file is renamed
inside its base directory: the destination name replaces the source name in
that directory listing and the other directories are untouched. -/
theorem rename_media_validation (s : MediaState) (fn nn loc : String) :
    (allowed_file nn = false → rename_media s fn nn loc = (RenameResult.invalidName, s)) ∧
    (allowed_file nn = true →
      secure_filename nn ∈ baseNames s (rename_base s fn loc) →
      rename_media s fn nn loc = (RenameResult.alreadyExists, s)) ∧
    (allowed_file nn = true →
      secure_filename nn ≠ "" →
      secure_filename nn ∉ baseNames s (rename_base s fn loc) →
      secure_filename fn ≠ "" →
      secure_filename fn ∈ baseNames s (rename_base s fn loc) →
      rename_media s fn nn loc =
        (RenameResult.renamed (secure_filename fn) (secure_filename nn),
         setBaseNames s (rename_base s fn loc)
           (secure_filename nn :: (baseNames s (rename_base s fn loc)).erase (secure_filename fn)))) := by
  refine ⟨?_, ?_, ?_⟩
  · intro h
    simp [rename_media, h]
  · intro ha hm
    have hnn : nn ≠ "" := by
      rintro rfl
      exact absurd ha (by decide)
    simp [rename_media, hnn, ha, hm]
  · intro ha hd1 hd2 hs1 hs2
    have hnn : nn ≠ "" := by
      rintro rfl
      exact absurd ha (by decide)
    simp [rename_media, hnn, ha, hd1, hd2, hs1, hs2]

/-- C6 witness: the three branches at concrete inputs — an extension outside
the allow-list is rejected unchanged, a colliding destination is rejected
unchanged, and a fresh destination renames in place in the pending listing. -/
theorem rename_media_validation_witness :
    rename_media (MediaState.mk ["a.mp4"] [] []) "a.mp4" "b.txt" "pending"
      = (RenameResult.invalidName, MediaState.mk ["a.mp4"] [] []) ∧
    rename_media (MediaState.mk ["a.mp4", "b.mp4"] [] []) "a.mp4" "b.mp4" "pending"
      = (RenameResult.alreadyExists, MediaState.mk ["a.mp4", "b.mp4"] [] []) ∧
    rename_media (MediaState.mk ["a.mp4"] [] []) "a.mp4" "c.mp4" "pending"
      = (RenameResult.renamed "a.mp4" "c.mp4", MediaState.mk ["c.mp4"] [] []) := by
  refine ⟨(rename_media_validation (MediaState.mk ["a.mp4"] [] []) "a.mp4" "b.txt" "pending").1
      (by decide), ?_, ?_⟩
  · exact (rename_media_validation (MediaState.mk ["a.mp4", "b.mp4"] [] []) "a.mp4" "b.mp4"
      "pending").2.1 (by decide) (by decide)
  · have h := (rename_media_validation (MediaState.mk ["a.mp4"] [] []) "a.mp4" "c.mp4"
      "pending").2.2 (by decide) (by decide) (by decide) (by decide) (by decide)
    rw [h]
    decide

/-- C7: when the cv2 import failed, generate_thumbnail_opencv returns false
for every input without invoking any decoder and without touching the
thumbnail directory, whether or not a cached thumbnail exists; the branch
returns before any other work, so nothing can raise to the caller. -/
theorem generate_thumbnail_opencv_no_backend (d : Decoder) (s : ThumbState) (v : String)
    (h : s.cv2Available = false) :
    generate_thumbnail_opencv d s v = ⟨false, s, false⟩ := by
  simp [generate_thumbnail_opencv, h]

/-- C7 witness: with the backend missing the call returns false even though a
cached thumbnail for the video exists. -/
theorem generate_thumbnail_opencv_no_backend_witness :
    (ThumbState.mk false ["clip"]).cv2Available = false ∧
    pathStem "clip.mp4" ∈ (ThumbState.mk false ["clip"]).thumbs ∧
    generate_thumbnail_opencv ⟨fun _ => true, fun _ => true⟩ (ThumbState.mk false ["clip"])
        "clip.mp4"
      = ⟨false, ThumbState.mk false ["clip"], false⟩ :=
  ⟨rfl, by decide, generate_thumbnail_opencv_no_backend _ _ _ rfl⟩

/-- C8 counterexample: for a frame of width 3 and height 2 the code computes
int(2 * (400 / 3)) = 266, while nearest-integer rounding of 2 * 400 / 3 =
266.67 gives 267; the resize height truncates and does not round. -/
theorem resize_height_truncates_not_rounds :
    (resize_target_dims 3 2).2 = 266 ∧ spec_round_height 3 2 = 267 ∧
    (resize_target_dims 3 2).2 ≠ spec_round_height 3 2 := by
  decide

/-- C8 amended: the thumbnail is resized to fixed width 400 and its height is
the truncation (floor) of h * 400 / w, characterized by the two floor
inequalities, not the nearest-integer rounding. -/
theorem resize_target_dims_floor_spec (w h : Nat) (hw : 0 < w) :
    (resize_target_dims w h).1 = 400 ∧
    (resize_target_dims w h).2 * w ≤ h * 400 ∧
    h * 400 < ((resize_target_dims w h).2 + 1) * w := by
  refine ⟨rfl, Nat.div_mul_le_self _ _, ?_⟩
  have h1 := Nat.div_add_mod (h * 400) w
  have h2 := Nat.mod_lt (h * 400) hw
  simp only [resize_target_dims]
  calc h * 400 = w * (h * 400 / w) + h * 400 % w := h1.symm
    _ < w * (h * 400 / w) + w := Nat.add_lt_add_left h2 _
    _ = (h * 400 / w + 1) * w := by ring

/-- C8 amended, witness: the floor characterization at width 5, height 3. -/
theorem resize_target_dims_floor_spec_witness :
    (resize_target_dims 5 3).1 = 400 ∧
    (resize_target_dims 5 3).2 * 5 ≤ 3 * 400 ∧
    3 * 400 < ((resize_target_dims 5 3).2 + 1) * 5 :=
  resize_target_dims_floor_spec 5 3 (by decide)

/-- C9: for every filename whose secure_filename sanitization is empty (such
as dot-dot, dot-dot-slash or dot), safe_media_path does not reject: the
resolved candidate equals the resolved base directory, the descendant check
passes, and the function returns the base directory path itself. -/
theorem safe_media_path_empty_name_returns_base (base : List String) (fn : String)
    (h : secure_filename fn = "") :
    safe_media_path base fn = Except.ok base :=
  safe_media_path_ok_base_of_empty base fn h

/-- C9 witness: the filename dot-dot sanitizes to the empty string and
resolves to the pending base directory itself. -/
theorem safe_media_path_empty_name_returns_base_witness :
    secure_filename ".." = "" ∧
    safe_media_path ["E:", "server--", "vedio-local", "assets", "not-approve-vedio"] ".."
      = Except.ok ["E:", "server--", "vedio-local", "assets", "not-approve-vedio"] :=
  ⟨by decide, safe_media_path_empty_name_returns_base _ ".." (by decide)⟩

/-- C10: media_kind is total and never fails: every filename is classified as
video or image; it is video exactly when the lowercased suffix is in the
video extension set, and image in every other case (image is the default
branch, including unrecognized extensions). -/
theorem media_kind_total_classification (fn : String) :
    (media_kind fn = "video" ∨ media_kind fn = "image") ∧
    (media_kind fn = "video" ↔ suffixLower fn ∈ VIDEO_EXTENSIONS) ∧
    (media_kind fn = "image" ↔ suffixLower fn ∉ VIDEO_EXTENSIONS) := by
  unfold media_kind
  by_cases h : suffixLower fn ∈ VIDEO_EXTENSIONS
  · simp [h]
  · simp [h]

end App
